import Mathlib

/-!
Verification of the particle-detection engine of `particle_detector.py`
(class `ParticleDetector` and its helpers) against its natural-language
specification.

The Python code is shallowly embedded: numeric quantities (pixel areas,
perimeters, axis lengths, intensities, float thresholds) are modelled as
rationals `ℚ`; results of the external OpenCV / numpy measurement
primitives (`cv2.contourArea`, `cv2.arcLength`, `cv2.moments`,
`cv2.fitEllipse`, `cv2.contourArea` of the convex hull, `np.sqrt` of the
area, and the masked-region intensity statistics) are carried as data on
an abstract `Contour` record, since they are measurements of image data
external to the logic under verification.  Fallible steps (the image
preprocessing chain and `cv2.fitEllipse`) are modelled with
`Option`/`Except`.  The background capture thread is modelled as a
sequential state transformer driven by the list of camera reads it
performs.
-/

namespace FluoTrack

/-- `self.min_particle_size = 50` from `ParticleDetector.__init__`. -/
def min_particle_size : ℚ := 50

/-- `self.max_particle_size = 10000` from `ParticleDetector.__init__`. -/
def max_particle_size : ℚ := 10000

/-- Capacity of `self.particle_history = deque(maxlen=100)` from
`ParticleDetector.__init__`. -/
def historyMaxlen : ℕ := 100

/-- Rational model of the double-precision constant `np.pi` used by
`calculate_circularity`. -/
def piRat : ℚ := 3.141592653589793

/-- Embedding of `ParticleDetector.calculate_circularity`:
`if perimeter == 0: return 0; return min(4*np.pi*area/perimeter**2, 1.0)`. -/
def calculate_circularity (area perimeter : ℚ) : ℚ :=
  if perimeter = 0 then 0
  else min (4 * piRat * area / perimeter ^ 2) 1

/-- Embedding of `ParticleDetector.classify_shape`, with the thresholds
`0.7`, `1.3`, `3.0`, `1.5` of the source as rationals. -/
def classify_shape (circularity aspect_ratio : ℚ) : String :=
  if circularity > 7/10 then
    if aspect_ratio < 13/10 then "bead"
    else "spherical"
  else if aspect_ratio > 3 then "fiber"
  else if aspect_ratio > 3/2 then "fragment"
  else "film"

/-- The shape-classification table exactly as the specification words it:
a flat priority list `bead`, `spherical`, `fiber`, `fragment`, `film`,
with the `bead` guard being the conjunction of both threshold tests.
Used only to compare the source's nested-conditional form against the
specification's wording. -/
def specShapeCategory (circularity aspect_ratio : ℚ) : String :=
  if circularity > 7/10 ∧ aspect_ratio < 13/10 then "bead"
  else if circularity > 7/10 then "spherical"
  else if aspect_ratio > 3 then "fiber"
  else if aspect_ratio > 3/2 then "fragment"
  else "film"

/-- One external contour as handed to the per-contour loop of
`detect_particles`, together with the values the external OpenCV / numpy
primitives report for it: `area` (`cv2.contourArea`), the image moments
`m00`, `m10`, `m01` (`cv2.moments`), `perimeter`
(`cv2.arcLength(contour, True)`), `vertexCount` (`len(contour)`),
`fitEllipseResult` (`cv2.fitEllipse`: the axis-length pair and the
angle; `none` models the call raising), `sqrtArea` (`np.sqrt(area)` used
by the fallback branch), `hullArea` (`cv2.contourArea(cv2.convexHull(contour))`),
and the masked-region intensity statistics `regionLen`
(`len(gray[mask == 255])`), `meanIntensity`, `stdIntensity`,
`textureRoughness` (`np.mean`, `np.std`, `np.std(np.gradient(...))` of
that region). -/
structure Contour where
  area : ℚ
  m00 : ℚ
  m10 : ℚ
  m01 : ℚ
  perimeter : ℚ
  vertexCount : ℕ
  fitEllipseResult : Option ((ℚ × ℚ) × ℚ)
  sqrtArea : ℚ
  hullArea : ℚ
  regionLen : ℕ
  meanIntensity : ℚ
  stdIntensity : ℚ
  textureRoughness : ℚ
deriving DecidableEq

/-- Python `int(...)` applied to a rational: truncation toward zero, as
used for the centroid coordinates `cx = int(M["m10"]/M["m00"])`. -/
def truncQ (q : ℚ) : ℤ := q.num.tdiv q.den

/-- The `particle_info` dictionary built per surviving contour, with the
optional keys as `Option` fields: `ellipse` and `angle` are set only in
the `len(contour) >= 5` branch, and the three intensity statistics only
when the masked region is nonempty. -/
structure Particle where
  contour : Contour
  area : ℚ
  centroid : ℤ × ℤ
  perimeter : ℚ
  ellipse : Option ((ℚ × ℚ) × ℚ)
  major_axis : ℚ
  minor_axis : ℚ
  aspect_ratio : ℚ
  angle : Option ℚ
  circularity : ℚ
  shape_type : String
  convexity : ℚ
  mean_intensity : Option ℚ
  std_intensity : Option ℚ
  texture_roughness : Option ℚ
deriving DecidableEq

/-- The body of the `for contour in contours` loop of
`detect_particles` for one contour.  `Except.ok none` models the two
`continue` branches (area outside `[min_particle_size,
max_particle_size]`, or zero moment `m00`); `Except.error ()` models an
exception escaping the per-contour work (the fallible external call is
`cv2.fitEllipse`); `Except.ok (some p)` models `particles.append(p)`. -/
def processContour (c : Contour) : Except Unit (Option Particle) :=
  if c.area < min_particle_size ∨ c.area > max_particle_size then Except.ok none
  else if c.m00 = 0 then Except.ok none
  else
    let cx := truncQ (c.m10 / c.m00)
    let cy := truncQ (c.m01 / c.m00)
    let ellipseStep : Except Unit (ℚ × ℚ × ℚ × Option ((ℚ × ℚ) × ℚ) × Option ℚ) :=
      if 5 ≤ c.vertexCount then
        match c.fitEllipseResult with
        | none => Except.error ()
        | some (axes, ang) =>
            Except.ok (max axes.1 axes.2, min axes.1 axes.2,
              max axes.1 axes.2 / (min axes.1 axes.2 + 1/100000),
              some (axes, ang), some ang)
      else
        Except.ok (c.sqrtArea, c.sqrtArea, 1, none, none)
    match ellipseStep with
    | Except.error () => Except.error ()
    | Except.ok (maj, mino, ar, ell, ang) =>
        let circ := calculate_circularity c.area c.perimeter
        Except.ok (some {
          contour := c
          area := c.area
          centroid := (cx, cy)
          perimeter := c.perimeter
          ellipse := ell
          major_axis := maj
          minor_axis := mino
          aspect_ratio := ar
          angle := ang
          circularity := circ
          shape_type := classify_shape circ ar
          convexity := c.area / (c.hullArea + 1/100000)
          mean_intensity := if 0 < c.regionLen then some c.meanIntensity else none
          std_intensity := if 0 < c.regionLen then some c.stdIntensity else none
          texture_roughness := if 0 < c.regionLen then some c.textureRoughness else none })

/-- The contour loop of `detect_particles` under its enclosing
`try/except`: an exception at some contour is caught and the particles
appended before it are returned, so the result at an `Except.error`
contour is exactly the list accumulated from the preceding contours. -/
def detectLoop : List Contour → List Particle
  | [] => []
  | c :: rest =>
      match processContour c with
      | Except.error () => []
      | Except.ok none => detectLoop rest
      | Except.ok (some p) => p :: detectLoop rest

/-- One input frame, abstracted to the outcome of the preprocessing
chain of `detect_particles` (grayscale conversion, bilateral filter,
CLAHE, adaptive threshold, morphology, `cv2.findContours`): `none`
models an exception in that chain (caught, leaving `particles = []`),
`some cs` the extracted external contours in discovery order. -/
structure Frame where
  contoursResult : Option (List Contour)
deriving DecidableEq

/-- Embedding of `ParticleDetector.detect_particles`: a total function —
the whole body is wrapped in `try/except`, so no failure propagates to
the caller. -/
def detect_particles (f : Frame) : List Particle :=
  match f.contoursResult with
  | none => []
  | some cs => detectLoop cs

/-- `np.mean` of a list of rationals. -/
def meanQ (l : List ℚ) : ℚ := l.sum / l.length

/-- `np.min` of a nonempty list (`0` on the empty list, which the code
never passes to it). -/
def minList (l : List ℚ) : ℚ :=
  match l with
  | [] => 0
  | x :: xs => xs.foldl min x

/-- `np.max` of a nonempty list (`0` on the empty list, which the code
never passes to it). -/
def maxList (l : List ℚ) : ℚ :=
  match l with
  | [] => 0
  | x :: xs => xs.foldl max x

/-- Ascending sort, as numpy's statistics routines perform internally. -/
def sortQ (l : List ℚ) : List ℚ := l.mergeSort (fun a b => decide (a ≤ b))

/-- `np.median`: middle element of the sorted list, or the mean of the
two middle elements for even length. -/
def medianQ (l : List ℚ) : ℚ :=
  let s := sortQ l
  let n := s.length
  if n % 2 = 1 then s.getD (n / 2) 0
  else (s.getD (n / 2 - 1) 0 + s.getD (n / 2) 0) / 2

/-- `np.percentile(l, p)` with numpy's default linear interpolation
between the two nearest order statistics. -/
def percentileQ (l : List ℚ) (p : ℚ) : ℚ :=
  let s := sortQ l
  let n := s.length
  if n = 0 then 0
  else
    let rank : ℚ := ((n : ℚ) - 1) * p / 100
    let i : ℕ := (⌊rank⌋).toNat
    let lo := s.getD i 0
    lo + (rank - ⌊rank⌋) * (s.getD (i + 1) lo - lo)

/-- The dictionary returned by `quantify_particles`, as a record.  The
Python dictionaries `size_distribution`, `shape_distribution` and
`roughness_distribution` are modelled as association lists in insertion
order.  Keys that the empty-input branch of the source does not put into
its dictionary at all (`std_size`, `average_aspect_ratio`,
`average_circularity`, `min_size`, `max_size`, `roughness_distribution`,
`median_size`, `percentile_95`) are `Option` fields, `none` meaning the
key is absent. -/
structure Quantification where
  count : ℕ
  average_size : ℚ
  average_length : ℚ
  average_width : ℚ
  total_area : ℚ
  size_distribution : List (String × ℕ)
  shape_distribution : List (String × ℕ)
  std_size : Option ℚ
  average_aspect_ratio : Option ℚ
  average_circularity : Option ℚ
  min_size : Option ℚ
  max_size : Option ℚ
  roughness_distribution : Option (List (String × ℕ))
  median_size : Option ℚ
  percentile_95 : Option ℚ
deriving DecidableEq

/-- Embedding of `ParticleDetector.quantify_particles`.  `np.std`
returns an irrational real in general, so it is abstracted as the
parameter `npStd`; every theorem below holds for an arbitrary `npStd`.
Python's `set(shapes)` iterates the distinct shapes in an unspecified
order; the embedding fixes first-occurrence order (`dedup`), which does
not affect any keyed lookup or total count.  A missing `std_intensity`
key is read as `0` via `p.get('std_intensity', 0)`, here
`Option.getD _ 0`. -/
def quantify_particles (npStd : List ℚ → ℚ) (particles : List Particle) :
    Quantification :=
  match particles with
  | [] =>
      { count := 0
        average_size := 0
        average_length := 0
        average_width := 0
        total_area := 0
        size_distribution := []
        shape_distribution := []
        std_size := none
        average_aspect_ratio := none
        average_circularity := none
        min_size := none
        max_size := none
        roughness_distribution := none
        median_size := none
        percentile_95 := none }
  | _ :: _ =>
      let areas := particles.map (·.area)
      let lengths := particles.map (·.major_axis)
      let widths := particles.map (·.minor_axis)
      let shapes := particles.map (·.shape_type)
      let aspect_ratios := particles.map (·.aspect_ratio)
      let circularities := particles.map (·.circularity)
      let size_dist : List (String × ℕ) :=
        [("tiny", areas.countP (fun a => decide (a < 100))),
         ("small", areas.countP (fun a => decide (100 ≤ a ∧ a < 500))),
         ("medium", areas.countP (fun a => decide (500 ≤ a ∧ a < 2000))),
         ("large", areas.countP (fun a => decide (2000 ≤ a)))]
      let shape_dist : List (String × ℕ) :=
        shapes.dedup.map (fun s => (s, shapes.count s))
      let roughness_dist : List (String × ℕ) :=
        [("smooth", particles.countP (fun p => decide (p.std_intensity.getD 0 < 20))),
         ("rough", particles.countP
            (fun p => decide (20 ≤ p.std_intensity.getD 0 ∧ p.std_intensity.getD 0 < 50))),
         ("weathered", particles.countP (fun p => decide (50 ≤ p.std_intensity.getD 0)))]
      { count := particles.length
        average_size := meanQ areas
        average_length := meanQ lengths
        average_width := meanQ widths
        total_area := areas.sum
        size_distribution := size_dist
        shape_distribution := shape_dist
        std_size := some (npStd areas)
        average_aspect_ratio := some (meanQ aspect_ratios)
        average_circularity := some (meanQ circularities)
        min_size := some (minList areas)
        max_size := some (maxList areas)
        roughness_distribution := some roughness_dist
        median_size := some (medianQ areas)
        percentile_95 := some (percentileQ areas 95) }

/-- One entry of `self.particle_history`: the dictionary appended each
iteration of `capture_loop` (`datetime.now()` modelled by the iteration
clock value). -/
structure Snapshot where
  timestamp : ℚ
  particles : List Particle
  count : ℕ
deriving DecidableEq

/-- Appending to a `collections.deque(maxlen=maxlen)`: once full, the
oldest (leftmost) entries are discarded to make room. -/
def dequeAppend {α : Type} (maxlen : ℕ) (buf : List α) (x : α) : List α :=
  if buf.length + 1 ≤ maxlen then buf ++ [x]
  else buf.drop (buf.length + 1 - maxlen) ++ [x]

/-- The mutable fields of a `ParticleDetector` instance touched by the
capture loop and its readers. -/
structure DetectorState where
  is_running : Bool
  current_frame : Option Frame
  particles : List Particle
  frame_count : ℕ
  fps : ℚ
  last_frame_time : ℚ
  particle_history : List Snapshot
deriving DecidableEq

/-- The field values set by `ParticleDetector.__init__` (with `t0` the
construction-time `time.time()`). -/
def detectorInit (t0 : ℚ) : DetectorState :=
  { is_running := false
    current_frame := none
    particles := []
    frame_count := 0
    fps := 0
    last_frame_time := t0
    particle_history := [] }

/-- The body of one successful iteration of the `while self.is_running`
loop of `capture_loop`: detect, publish the particle list, append a
snapshot to the bounded history, update the fps estimate (with the
`1e-5` guard of the source), the frame counter and the current frame.
`now` is the iteration's clock reading. -/
def captureStep (st : DetectorState) (frame : Frame) (now : ℚ) : DetectorState :=
  let ps := detect_particles frame
  { st with
    particles := ps
    particle_history :=
      dequeAppend historyMaxlen st.particle_history
        { timestamp := now, particles := ps, count := ps.length }
    fps := 1 / (now - st.last_frame_time + 1/100000)
    last_frame_time := now
    frame_count := st.frame_count + 1
    current_frame := some frame }

/-- The `while self.is_running` loop, driven by the sequence of
`self.cap.read()` outcomes it observes (`none` models `ret == False`,
which breaks out of the loop; exhausting the list models the running
flag being cleared by `stop_capture`). -/
def captureRun : DetectorState → List (Option Frame × ℚ) → DetectorState
  | st, [] => st
  | st, (none, _) :: _ => st
  | st, (some f, now) :: rest => captureRun (captureStep st f now) rest

/-- Embedding of `ParticleDetector.capture_loop` run to completion:
when `initialize_camera` fails (`camOk = false`) it returns before
touching any state — in particular before setting `is_running` — and
otherwise it sets the running flag, consumes its reads, and the
`finally` block clears the flag. -/
def capture_loop (camOk : Bool) (reads : List (Option Frame × ℚ))
    (st : DetectorState) : DetectorState :=
  if camOk then
    let st' := captureRun { st with is_running := true } reads
    { st' with is_running := false }
  else st

/-- Embedding of `ParticleDetector.start_capture`, with the spawned
thread's `capture_loop` sequentialised.  The source returns `None`
unconditionally, modelled by the `Unit` component of the result: the
caller receives no success/failure information. -/
def start_capture (camOk : Bool) (reads : List (Option Frame × ℚ))
    (st : DetectorState) : DetectorState × Unit :=
  if st.is_running then (st, ())
  else (capture_loop camOk reads st, ())

/-- Embedding of `ParticleDetector.stop_capture`: sets
`self.is_running = False` and nothing else. -/
def stop_capture (st : DetectorState) : DetectorState :=
  { st with is_running := false }

/-- Embedding of `ParticleDetector.get_current_particles`: returns a
copy of the published list (value-equal to it). -/
def get_current_particles (st : DetectorState) : List Particle :=
  st.particles

/-- Embedding of `ParticleDetector.get_quantification`. -/
def get_quantification (npStd : List ℚ → ℚ) (st : DetectorState) :
    Quantification :=
  quantify_particles npStd st.particles

/-- A concrete 4-vertex contour (fallback branch): in-bounds area `100`,
perimeter `10`, no ellipse fit. -/
def w3Contour : Contour :=
  { area := 100
    m00 := 1
    m10 := 0
    m01 := 0
    perimeter := 10
    vertexCount := 4
    fitEllipseResult := none
    sqrtArea := 10
    hullArea := 100 - 1/100000
    regionLen := 0
    meanIntensity := 0
    stdIntensity := 0
    textureRoughness := 0 }

/-- A frame whose preprocessing yields exactly `w3Contour`. -/
def w3Frame : Frame := ⟨some [w3Contour]⟩

/-- The descriptor `detect_particles` builds for `w3Contour`. -/
def w3Particle : Particle :=
  { contour := w3Contour
    area := 100
    centroid := (0, 0)
    perimeter := 10
    ellipse := none
    major_axis := 10
    minor_axis := 10
    aspect_ratio := 1
    angle := none
    circularity := 1
    shape_type := "bead"
    convexity := 1
    mean_intensity := none
    std_intensity := none
    texture_roughness := none }

/-- A concrete 5-vertex contour whose ellipse fit reports two equal axis
lengths `10`, the near-circular case. -/
def cex5Contour : Contour :=
  { w3Contour with vertexCount := 5, fitEllipseResult := some ((10, 10), 0) }

/-- A frame whose preprocessing yields exactly `cex5Contour`. -/
def cex5Frame : Frame := ⟨some [cex5Contour]⟩

/-- The descriptor `detect_particles` builds for `cex5Contour`: its
aspect ratio `10 / (10 + 1e-5)` is strictly below `1`. -/
def cex5Particle : Particle :=
  { w3Particle with
    contour := cex5Contour
    ellipse := some ((10, 10), 0)
    angle := some 0
    aspect_ratio := 1000000/1000001 }

/-- A concrete 5-vertex contour whose ellipse fit reports axis lengths
`10` and `20`. -/
def w5Contour : Contour :=
  { w3Contour with vertexCount := 5, fitEllipseResult := some ((10, 20), 0) }

/-- A frame whose preprocessing yields exactly `w5Contour`. -/
def w5Frame : Frame := ⟨some [w5Contour]⟩

/-- The descriptor `detect_particles` builds for `w5Contour`. -/
def w5Particle : Particle :=
  { w3Particle with
    contour := w5Contour
    ellipse := some ((10, 20), 0)
    angle := some 0
    major_axis := 20
    minor_axis := 10
    aspect_ratio := 2000000/1000001
    shape_type := "spherical" }

/-- A concrete in-bounds 5-vertex contour on which `cv2.fitEllipse`
raises (modelled by `fitEllipseResult = none`). -/
def cex7Bad : Contour :=
  { w3Contour with vertexCount := 5, fitEllipseResult := none }

/-- A frame with one well-behaved contour followed by one whose
processing raises. -/
def cex7Frame : Frame := ⟨some [w3Contour, cex7Bad]⟩

/-- A concrete snapshot. -/
def wSnapshot : Snapshot := { timestamp := 0, particles := [], count := 0 }

/-- A concrete particle descriptor used as quantification input. -/
def wParticle10 : Particle :=
  { contour := w3Contour
    area := 0
    centroid := (0, 0)
    perimeter := 0
    ellipse := none
    major_axis := 0
    minor_axis := 0
    aspect_ratio := 1
    angle := none
    circularity := 0
    shape_type := "film"
    convexity := 0
    mean_intensity := none
    std_intensity := none
    texture_roughness := none }

end FluoTrack

namespace FluoTrack

/-- C1: the shape classifier agrees with the specification's priority
table for every pair of inputs; being a Lean function of exactly the two
arguments, it is deterministic and pure, and the source tests
`circularity` strictly before `aspect_ratio`. -/
theorem classify_shape_matches_spec (circularity aspect_ratio : ℚ) :
    classify_shape circularity aspect_ratio =
      specShapeCategory circularity aspect_ratio := by
  unfold classify_shape specShapeCategory
  by_cases hc : circularity > 7/10 <;>
    by_cases ha : aspect_ratio < 13/10 <;>
      simp [hc, ha]

/-- C2: for every nonnegative area the circularity is the clamped ratio
`4π·area/perimeter²` (clamped above at `1`), it lies in `[0, 1]`, and a
zero perimeter yields `0`. -/
theorem circularity_clamped (area perimeter : ℚ) (harea : 0 ≤ area) :
    (perimeter = 0 → calculate_circularity area perimeter = 0) ∧
    (perimeter ≠ 0 → calculate_circularity area perimeter =
      min (4 * piRat * area / perimeter ^ 2) 1) ∧
    0 ≤ calculate_circularity area perimeter ∧
    calculate_circularity area perimeter ≤ 1 := by
  unfold calculate_circularity
  by_cases hp : perimeter = 0
  · simp [hp]
  · have hp2 : 0 < perimeter ^ 2 := by positivity
    have hpi : (0:ℚ) < piRat := by norm_num [piRat]
    have hnum : 0 ≤ 4 * piRat * area := by positivity
    have hquot : 0 ≤ 4 * piRat * area / perimeter ^ 2 := by positivity
    refine ⟨fun h => absurd h hp, fun _ => by simp [hp], ?_, ?_⟩
    · simp only [if_neg hp]
      exact le_min hquot zero_le_one
    · simp only [if_neg hp]
      exact min_le_right _ _

/-- Witness for C2 at `area = 3`, `perimeter = 0`. -/
theorem circularity_clamped_witness :
    calculate_circularity 3 0 = 0 ∧
    0 ≤ calculate_circularity 3 0 ∧
    calculate_circularity 3 0 ≤ 1 :=
  ⟨(circularity_clamped 3 0 (by norm_num)).1 rfl,
   (circularity_clamped 3 0 (by norm_num)).2.2.1,
   (circularity_clamped 3 0 (by norm_num)).2.2.2⟩

/-- Structure of a particle that the per-contour step accepts: its
`area` is the contour's area, which passed the size filter, and its
aspect ratio is either the fallback `1` or the guarded quotient of its
own axis fields. -/
theorem processContour_ok_some {c : Contour} {p : Particle}
    (h : processContour c = Except.ok (some p)) :
    p.area = c.area ∧
    ¬(c.area < min_particle_size ∨ c.area > max_particle_size) ∧
    (p.aspect_ratio = 1 ∨
      p.aspect_ratio = p.major_axis / (p.minor_axis + 1/100000)) := by
  by_cases h1 : c.area < min_particle_size ∨ c.area > max_particle_size
  · simp [processContour, h1] at h
  by_cases h2 : c.m00 = 0
  · simp [processContour, h1, h2] at h
  by_cases h5 : 5 ≤ c.vertexCount
  · cases hfe : c.fitEllipseResult with
    | none => simp [processContour, h1, h2, h5, hfe] at h
    | some v =>
      obtain ⟨axes, ang⟩ := v
      simp only [processContour, h1, h2, h5, hfe, if_neg, if_pos, if_true,
        if_false, ite_false, ite_true, Except.ok.injEq, Option.some.injEq] at h
      subst h
      exact ⟨rfl, h1, Or.inr rfl⟩
  · simp only [processContour, h1, h2, h5, if_neg, if_pos, if_true, if_false,
      ite_false, ite_true, Except.ok.injEq, Option.some.injEq] at h
    subst h
    exact ⟨rfl, h1, Or.inl rfl⟩

/-- Every particle produced by the contour loop comes from some contour
of the input that the per-contour step accepted. -/
theorem mem_detectLoop {p : Particle} :
    ∀ {cs : List Contour}, p ∈ detectLoop cs →
      ∃ c ∈ cs, processContour c = Except.ok (some p) := by
  intro cs
  induction cs with
  | nil => intro hmem; simp [detectLoop] at hmem
  | cons c rest ih =>
    intro hmem
    cases hpc : processContour c with
    | error e =>
      cases e
      simp [detectLoop, hpc] at hmem
    | ok o =>
      cases o with
      | none =>
        simp only [detectLoop, hpc] at hmem
        obtain ⟨c', hc', hp⟩ := ih hmem
        exact ⟨c', List.mem_cons_of_mem _ hc', hp⟩
      | some q =>
        simp only [detectLoop, hpc, List.mem_cons] at hmem
        rcases hmem with rfl | hmem
        · exact ⟨c, List.mem_cons_self _ _, hpc⟩
        · obtain ⟨c', hc', hp⟩ := ih hmem
          exact ⟨c', List.mem_cons_of_mem _ hc', hp⟩

/-- C3: every particle descriptor returned by the detection pipeline
has its area within the configured inclusive bounds
`[min_particle_size, max_particle_size]` (defaults `50` and `10000`):
contours with area outside the bounds are skipped before a descriptor
is built. -/
theorem detected_area_within_bounds (f : Frame) (p : Particle)
    (hp : p ∈ detect_particles f) :
    min_particle_size ≤ p.area ∧ p.area ≤ max_particle_size := by
  unfold detect_particles at hp
  cases hf : f.contoursResult with
  | none => rw [hf] at hp; simp at hp
  | some cs =>
    rw [hf] at hp
    obtain ⟨c, _, hpc⟩ := mem_detectLoop hp
    obtain ⟨harea, hbounds, -⟩ := processContour_ok_some hpc
    push_neg at hbounds
    rw [harea]
    exact ⟨hbounds.1, hbounds.2⟩

/-- C5 (amended): a produced particle's aspect ratio is either the
fallback `1` (boundary with fewer than 5 vertices) or
`major_axis / (minor_axis + 1e-5)`; the latter is at least `1` whenever
`minor_axis` is nonnegative and `major_axis ≥ minor_axis + 1e-5`, but
drops slightly below `1` for near-circular fits with
`major_axis − minor_axis < 1e-5`. -/
theorem aspect_ratio_form (f : Frame) (p : Particle)
    (hp : p ∈ detect_particles f) :
    (p.aspect_ratio = 1 ∨
      p.aspect_ratio = p.major_axis / (p.minor_axis + 1/100000)) ∧
    (0 ≤ p.minor_axis → p.minor_axis + 1/100000 ≤ p.major_axis →
      1 ≤ p.aspect_ratio) := by
  unfold detect_particles at hp
  cases hf : f.contoursResult with
  | none => rw [hf] at hp; simp at hp
  | some cs =>
    rw [hf] at hp
    obtain ⟨c, -, hpc⟩ := mem_detectLoop hp
    obtain ⟨-, -, har⟩ := processContour_ok_some hpc
    refine ⟨har, fun hmin hle => ?_⟩
    rcases har with h1 | hq
    · rw [h1]
    · rw [hq]
      have hpos : 0 < p.minor_axis + 1/100000 := by linarith
      exact (one_le_div hpos).mpr hle

/-- C7 (amended): a preprocessing failure yields the empty list, and a
failure while processing a contour yields exactly the particles
extracted from the contours processed before it (the enclosing
`try/except` catches the exception and `particles` as accumulated so
far is returned). -/
theorem detect_failure_keeps_earlier :
    (∀ f : Frame, f.contoursResult = none → detect_particles f = []) ∧
    (∀ (front : List Contour) (c : Contour) (rest : List Contour),
      (∀ c' ∈ front, processContour c' ≠ Except.error ()) →
      processContour c = Except.error () →
      detectLoop (front ++ c :: rest) = detectLoop front) := by
  constructor
  · intro f hf
    simp [detect_particles, hf]
  · intro front c rest hok herr
    induction front with
    | nil => simp [detectLoop, herr]
    | cons c' front' ih =>
      have hc' : processContour c' ≠ Except.error () :=
        hok c' (List.mem_cons_self _ _)
      have hok' : ∀ x ∈ front', processContour x ≠ Except.error () :=
        fun x hx => hok x (List.mem_cons_of_mem _ hx)
      cases hpc : processContour c' with
      | error e => cases e; exact absurd hpc hc'
      | ok o =>
        cases o with
        | none => simp [detectLoop, hpc, ih hok']
        | some q => simp [detectLoop, hpc, ih hok']

/-- Evaluation of the per-contour step on `w3Contour`. -/
theorem processContour_w3 :
    processContour w3Contour = Except.ok (some w3Particle) := by
  simp only [processContour, w3Contour, w3Particle, min_particle_size,
    max_particle_size, truncQ, calculate_circularity, classify_shape, piRat]
  norm_num [min_def]

/-- Evaluation of the contour loop on `w3Frame`. -/
theorem detect_w3 : detect_particles w3Frame = [w3Particle] := by
  simp [detect_particles, w3Frame, detectLoop, processContour_w3]

/-- Evaluation of the per-contour step on `cex5Contour`. -/
theorem processContour_cex5 :
    processContour cex5Contour = Except.ok (some cex5Particle) := by
  simp only [processContour, cex5Contour, cex5Particle, w3Contour, w3Particle,
    min_particle_size, max_particle_size, truncQ, calculate_circularity,
    classify_shape, piRat]
  norm_num [min_def, max_def]

/-- Evaluation of the per-contour step on `w5Contour`. -/
theorem processContour_w5 :
    processContour w5Contour = Except.ok (some w5Particle) := by
  simp only [processContour, w5Contour, w5Particle, w3Contour, w3Particle,
    min_particle_size, max_particle_size, truncQ, calculate_circularity,
    classify_shape, piRat]
  norm_num [min_def, max_def]

/-- Evaluation of the per-contour step on `cex7Bad`: it raises. -/
theorem processContour_cex7Bad :
    processContour cex7Bad = Except.error () := by
  simp only [processContour, cex7Bad, w3Contour, min_particle_size,
    max_particle_size]
  norm_num

/-- Witness for C3 at the concrete frame `w3Frame`. -/
theorem detected_area_within_bounds_witness :
    min_particle_size ≤ w3Particle.area ∧ w3Particle.area ≤ max_particle_size :=
  detected_area_within_bounds w3Frame w3Particle (by simp [detect_w3])

/-- Counterexample to C5 as stated: the frame `cex5Frame` produces a
particle whose aspect ratio is strictly below `1` — its ellipse fit has
equal axes, so `aspect_ratio = 10 / (10 + 1e-5) < 1`. -/
theorem aspect_ratio_below_one_cex :
    ∃ p ∈ detect_particles cex5Frame, p.aspect_ratio < 1 := by
  have hd : detect_particles cex5Frame = [cex5Particle] := by
    simp [detect_particles, cex5Frame, detectLoop, processContour_cex5]
  refine ⟨cex5Particle, by simp [hd], ?_⟩
  norm_num [cex5Particle, w3Particle]

/-- Witness for the amended C5 at the concrete frame `w5Frame`, whose
particle has `major_axis = 20 ≥ minor_axis + 1e-5 = 10 + 1e-5`. -/
theorem aspect_ratio_form_witness :
    (w5Particle.aspect_ratio = 1 ∨
      w5Particle.aspect_ratio =
        w5Particle.major_axis / (w5Particle.minor_axis + 1/100000)) ∧
    1 ≤ w5Particle.aspect_ratio := by
  have hd : detect_particles w5Frame = [w5Particle] := by
    simp [detect_particles, w5Frame, detectLoop, processContour_w5]
  have h := aspect_ratio_form w5Frame w5Particle (by simp [hd])
  exact ⟨h.1, h.2 (by norm_num [w5Particle, w3Particle])
    (by norm_num [w5Particle, w3Particle])⟩

/-- Counterexample to C7 as stated: on `cex7Frame` an internal failure
occurs (processing its second contour raises), yet the pipeline returns
the nonempty list of particles extracted before the failure, not the
empty list. -/
theorem detect_failure_nonempty_cex :
    processContour cex7Bad = Except.error () ∧
    detect_particles cex7Frame = [w3Particle] ∧
    detect_particles cex7Frame ≠ [] := by
  have hd : detect_particles cex7Frame = [w3Particle] := by
    simp [detect_particles, cex7Frame, detectLoop, processContour_w3,
      processContour_cex7Bad]
  exact ⟨processContour_cex7Bad, hd, by rw [hd]; simp⟩

/-- Witness for the amended C7 at the concrete contour list
`[w3Contour] ++ [cex7Bad]`. -/
theorem detect_failure_keeps_earlier_witness :
    detectLoop ([w3Contour] ++ cex7Bad :: []) = detectLoop [w3Contour] :=
  detect_failure_keeps_earlier.2 [w3Contour] cex7Bad []
    (by
      intro c' hc'
      simp only [List.mem_singleton] at hc'
      subst hc'
      rw [processContour_w3]
      simp)
    processContour_cex7Bad

/-- Counterexample to C4 as stated: the empty-input result of
`quantify_particles` has no roughness distribution at all (the source's
empty-case dictionary omits the `roughness_distribution` key), rather
than an empty one. -/
theorem quantify_empty_roughness_absent :
    (quantify_particles (fun _ => 0) []).roughness_distribution = none ∧
    (quantify_particles (fun _ => 0) []).roughness_distribution ≠ some [] :=
  ⟨rfl, by simp [quantify_particles]⟩

/-- C4 (amended): quantification of the empty collection never fails
and returns count `0`, zero averages and total, and empty size and
shape histograms; the roughness histogram (like the other
nonempty-only statistics) is omitted entirely rather than returned
empty. -/
theorem quantify_empty_result (npStd : List ℚ → ℚ) :
    quantify_particles npStd [] =
      { count := 0
        average_size := 0
        average_length := 0
        average_width := 0
        total_area := 0
        size_distribution := []
        shape_distribution := []
        std_size := none
        average_aspect_ratio := none
        average_circularity := none
        min_size := none
        max_size := none
        roughness_distribution := none
        median_size := none
        percentile_95 := none } := rfl

/-- The four area buckets of `quantify_particles` are mutually
exclusive and exhaustive, so their counts sum to the list length. -/
theorem size_buckets_partition (areas : List ℚ) :
    areas.countP (fun a => decide (a < 100)) +
    areas.countP (fun a => decide (100 ≤ a ∧ a < 500)) +
    areas.countP (fun a => decide (500 ≤ a ∧ a < 2000)) +
    areas.countP (fun a => decide (2000 ≤ a)) = areas.length := by
  induction areas with
  | nil => simp
  | cons a l ih =>
    rcases lt_or_le a 100 with h1 | h1
    · have hA : ¬(100:ℚ) ≤ a := not_le.mpr h1
      have hB : ¬(500:ℚ) ≤ a := not_le.mpr (h1.trans (by norm_num))
      have hC : ¬(2000:ℚ) ≤ a := not_le.mpr (h1.trans (by norm_num))
      simp only [List.countP_cons, List.length_cons, decide_eq_true_eq,
        h1, hA, hB, hC, true_and, and_true, false_and, and_false,
        if_true, if_false, ite_true, ite_false, eq_self_iff_true,
        not_false_iff]
      omega
    · rcases lt_or_le a 500 with h2 | h2
      · have hA : ¬ a < 100 := not_lt.mpr h1
        have hC : ¬(500:ℚ) ≤ a := not_le.mpr h2
        have hD : ¬(2000:ℚ) ≤ a := not_le.mpr (h2.trans (by norm_num))
        simp only [List.countP_cons, List.length_cons, decide_eq_true_eq,
          h1, h2, hA, hC, hD, true_and, and_true, false_and, and_false,
          if_true, if_false, ite_true, ite_false, eq_self_iff_true,
          not_false_iff]
        omega
      · rcases lt_or_le a 2000 with h3 | h3
        · have hA : ¬ a < 100 := not_lt.mpr ((by norm_num : (100:ℚ) ≤ 500).trans h2)
          have hB : ¬ a < 500 := not_lt.mpr h2
          have hC : ¬(2000:ℚ) ≤ a := not_le.mpr h3
          have hD : (500:ℚ) ≤ a := h2
          simp only [List.countP_cons, List.length_cons, decide_eq_true_eq,
            h3, hA, hB, hC, hD, true_and, and_true, false_and, and_false,
            if_true, if_false, ite_true, ite_false, eq_self_iff_true,
            not_false_iff]
          omega
        · have hA : ¬ a < 100 := not_lt.mpr ((by norm_num : (100:ℚ) ≤ 2000).trans h3)
          have hB : ¬ a < 500 := not_lt.mpr ((by norm_num : (500:ℚ) ≤ 2000).trans h3)
          have hC : ¬ a < 2000 := not_lt.mpr h3
          have hD : (2000:ℚ) ≤ a := h3
          simp only [List.countP_cons, List.length_cons, decide_eq_true_eq,
            hA, hB, hC, hD, true_and, and_true, false_and, and_false,
            if_true, if_false, ite_true, ite_false, eq_self_iff_true,
            not_false_iff]
          omega

/-- The three roughness buckets of `quantify_particles` (on the
std-intensity read with default `0`) are mutually exclusive and
exhaustive, so their counts sum to the list length. -/
theorem roughness_buckets_partition (ps : List Particle) :
    ps.countP (fun p => decide (p.std_intensity.getD 0 < 20)) +
    ps.countP (fun p =>
      decide (20 ≤ p.std_intensity.getD 0 ∧ p.std_intensity.getD 0 < 50)) +
    ps.countP (fun p => decide (50 ≤ p.std_intensity.getD 0)) = ps.length := by
  induction ps with
  | nil => simp
  | cons p l ih =>
    rcases lt_or_le (p.std_intensity.getD 0) 20 with h1 | h1
    · have hA : ¬(20:ℚ) ≤ p.std_intensity.getD 0 := not_le.mpr h1
      have hB : ¬(50:ℚ) ≤ p.std_intensity.getD 0 :=
        not_le.mpr (h1.trans (by norm_num))
      simp only [List.countP_cons, List.length_cons, decide_eq_true_eq,
        h1, hA, hB, true_and, and_true, false_and, and_false,
        if_true, if_false, ite_true, ite_false, eq_self_iff_true,
        not_false_iff]
      omega
    · rcases lt_or_le (p.std_intensity.getD 0) 50 with h2 | h2
      · have hA : ¬ p.std_intensity.getD 0 < 20 := not_lt.mpr h1
        have hB : ¬(50:ℚ) ≤ p.std_intensity.getD 0 := not_le.mpr h2
        simp only [List.countP_cons, List.length_cons, decide_eq_true_eq,
          h1, h2, hA, hB, true_and, and_true, false_and, and_false,
          if_true, if_false, ite_true, ite_false, eq_self_iff_true,
          not_false_iff]
        omega
      · have hA : ¬ p.std_intensity.getD 0 < 20 :=
          not_lt.mpr ((by norm_num : (20:ℚ) ≤ 50).trans h2)
        have hB : ¬ p.std_intensity.getD 0 < 50 := not_lt.mpr h2
        have hC : (50:ℚ) ≤ p.std_intensity.getD 0 := h2
        simp only [List.countP_cons, List.length_cons, decide_eq_true_eq,
          hA, hB, hC, true_and, and_true, false_and, and_false,
          if_true, if_false, ite_true, ite_false, eq_self_iff_true,
          not_false_iff]
        omega

/-- C10: for a nonempty collection, each of the three histograms of
`quantify_particles` partitions the input: the four size buckets, the
per-category shape counts, and the three roughness buckets (a particle
without `std_intensity` read as `0`, hence `smooth`) each sum to
`count`. -/
theorem histograms_partition_count (npStd : List ℚ → ℚ)
    (particles : List Particle) (hne : particles ≠ []) :
    ((quantify_particles npStd particles).size_distribution.map Prod.snd).sum =
      (quantify_particles npStd particles).count ∧
    ((quantify_particles npStd particles).shape_distribution.map Prod.snd).sum =
      (quantify_particles npStd particles).count ∧
    ∃ rd, (quantify_particles npStd particles).roughness_distribution = some rd ∧
      (rd.map Prod.snd).sum = (quantify_particles npStd particles).count := by
  obtain ⟨p, ps, rfl⟩ := List.exists_cons_of_ne_nil hne
  refine ⟨?_, ?_, ?_⟩
  · simp only [quantify_particles, List.map_cons, List.map_nil, List.sum_cons,
      List.sum_nil, List.length_cons]
    have h := size_buckets_partition ((p :: ps).map (·.area))
    simp only [List.map_cons, List.length_map, List.length_cons] at h
    omega
  · simp only [quantify_particles, List.map_map]
    have hcomp :
        (Prod.snd ∘ fun s => (s, ((p :: ps).map (·.shape_type)).count s)) =
          fun s => ((p :: ps).map (·.shape_type)).count s := rfl
    rw [hcomp, List.sum_map_count_dedup_eq_length, List.length_map]
  · refine ⟨_, rfl, ?_⟩
    simp only [quantify_particles, List.map_cons, List.map_nil, List.sum_cons,
      List.sum_nil, List.length_cons]
    have h := roughness_buckets_partition (p :: ps)
    simp only [List.length_cons] at h
    omega

/-- Witness for C10 at the singleton collection `[wParticle10]`. -/
theorem histograms_partition_count_witness :
    ((quantify_particles (fun _ => 0) [wParticle10]).size_distribution.map
        Prod.snd).sum =
      (quantify_particles (fun _ => 0) [wParticle10]).count ∧
    ((quantify_particles (fun _ => 0) [wParticle10]).shape_distribution.map
        Prod.snd).sum =
      (quantify_particles (fun _ => 0) [wParticle10]).count ∧
    ∃ rd, (quantify_particles (fun _ => 0) [wParticle10]).roughness_distribution =
        some rd ∧
      (rd.map Prod.snd).sum = (quantify_particles (fun _ => 0) [wParticle10]).count :=
  histograms_partition_count (fun _ => 0) [wParticle10] (by simp)

/-- Appending to a bounded deque preserves the capacity bound (for a
positive capacity). -/
theorem dequeAppend_length_le {α : Type} (maxlen : ℕ) (buf : List α) (x : α)
    (hpos : 0 < maxlen) (h : buf.length ≤ maxlen) :
    (dequeAppend maxlen buf x).length ≤ maxlen := by
  unfold dequeAppend
  by_cases hc : buf.length + 1 ≤ maxlen
  · simp [hc]
  · simp only [if_neg hc, List.length_append, List.length_drop,
      List.length_cons, List.length_nil]
    omega

/-- C6: the history buffer never exceeds its configured capacity
`historyMaxlen = 100`, and appending to a full buffer evicts exactly the
oldest snapshot; the capture-loop iteration preserves the bound. -/
theorem history_capacity_fifo :
    (∀ (buf : List Snapshot) (s : Snapshot), buf.length ≤ historyMaxlen →
      (dequeAppend historyMaxlen buf s).length ≤ historyMaxlen ∧
      (buf.length = historyMaxlen →
        dequeAppend historyMaxlen buf s = buf.tail ++ [s])) ∧
    (∀ (st : DetectorState) (f : Frame) (now : ℚ),
      st.particle_history.length ≤ historyMaxlen →
      ((captureStep st f now).particle_history).length ≤ historyMaxlen) := by
  constructor
  · intro buf s h
    refine ⟨dequeAppend_length_le _ _ _ (by norm_num [historyMaxlen]) h, ?_⟩
    intro hfull
    have hc : ¬(buf.length + 1 ≤ historyMaxlen) := by omega
    have h1 : buf.length + 1 - historyMaxlen = 1 := by omega
    simp [dequeAppend, hc, h1, List.drop_one]
  · intro st f now h
    simpa [captureStep] using
      dequeAppend_length_le historyMaxlen st.particle_history
        { timestamp := now, particles := detect_particles f,
          count := (detect_particles f).length }
        (by norm_num [historyMaxlen]) h

/-- Witness for C6 at a full buffer of `100` snapshots and at a
concrete capture iteration. -/
theorem history_capacity_fifo_witness :
    (dequeAppend historyMaxlen (List.replicate 100 wSnapshot) wSnapshot).length ≤
      historyMaxlen ∧
    dequeAppend historyMaxlen (List.replicate 100 wSnapshot) wSnapshot =
      (List.replicate 100 wSnapshot).tail ++ [wSnapshot] ∧
    ((captureStep (detectorInit 0) ⟨none⟩ 0).particle_history).length ≤
      historyMaxlen := by
  have h : (List.replicate 100 wSnapshot).length ≤ historyMaxlen := by
    simp [historyMaxlen]
  exact ⟨(history_capacity_fifo.1 _ _ h).1,
    (history_capacity_fifo.1 _ _ h).2 (by simp [historyMaxlen]),
    history_capacity_fifo.2 (detectorInit 0) ⟨none⟩ 0 (by simp [detectorInit])⟩

/-- Counterexample to C8 as stated: on a failed camera open,
`start_capture` returns to its caller exactly what it returns on a
successful open — the bare `None` (here `Unit`) value — so no failure
result is reported; the detector does remain stopped. -/
theorem start_failure_unreported_cex :
    (start_capture false [] (detectorInit 0)).2 =
      (start_capture true [] (detectorInit 0)).2 ∧
    (start_capture false [] (detectorInit 0)).2 = () ∧
    (start_capture false [] (detectorInit 0)).1.is_running = false := by
  refine ⟨rfl, rfl, ?_⟩
  simp [start_capture, capture_loop, detectorInit]

/-- C8 (amended): when the camera fails to open, the capture loop
returns before setting the running flag, so the detector state is
unchanged and `is_running` stays `false`, and no failure propagates;
but `start()` reports nothing to its caller — its return value is the
same unit value as on success. -/
theorem start_open_failure_keeps_stopped (reads : List (Option Frame × ℚ))
    (st : DetectorState) (h : st.is_running = false) :
    (start_capture false reads st).1 = st ∧
    (start_capture false reads st).1.is_running = false ∧
    (start_capture false reads st).2 = (start_capture true reads st).2 := by
  simp [start_capture, capture_loop, h]

/-- Witness for the amended C8 at a freshly constructed detector. -/
theorem start_open_failure_keeps_stopped_witness :
    (start_capture false [] (detectorInit 5)).1 = detectorInit 5 ∧
    (start_capture false [] (detectorInit 5)).1.is_running = false ∧
    (start_capture false [] (detectorInit 5)).2 =
      (start_capture true [] (detectorInit 5)).2 :=
  start_open_failure_keeps_stopped [] (detectorInit 5) rfl

/-- C9: `stop_capture` only clears the running flag: the published
particle list is untouched, so `get_current_particles` right after a
stop returns the last computed list. -/
theorem stop_preserves_particles (st : DetectorState) :
    get_current_particles (stop_capture st) = get_current_particles st ∧
    (stop_capture st).particles = st.particles ∧
    (stop_capture st).is_running = false :=
  ⟨rfl, rfl, rfl⟩

end FluoTrack
